import Mathlib

/-!
Verification of the Essay-Master client-side orchestration layer: the
question-catalog merge and per-question state merge of `src/App.tsx`
(and its variant `src/unnamed/part_001`), and the prompt-construction
and response-normalization layer of `src/services/geminiService.ts`.

The embedding is shallow: TypeScript strings become `String`, JavaScript
values parsed from JSON become the inductive `Js`, `undefined` is
`Option.none`, a thrown-and-caught exception becomes `Except`, and the
external generative-API call becomes an oracle argument (the response
text or parsed JSON, or the error it throws).  Every function is
translated from the source file named in its doc comment.
-/

namespace EssayMaster

/-- Question record, fields as read and written by `src/App.tsx` and
`src/services/geminiService.ts` (the defining `src/types.ts` is not in
the staged sources; every field below appears at a use site). -/
structure Question where
  id : String
  year : String
  paper : String
  variant : String
  questionNumber : String
  topic : String
  chapter : String
  questionText : String
  markScheme : String
  maxMarks : Nat
deriving Repr, DecidableEq

/-- ClozeBlank from the cloze exercise payload: integer id, removed
original text, hint (used by `evaluateClozeAnswers`). -/
structure ClozeBlank where
  id : Int
  original : String
  hint : String
deriving Repr, DecidableEq

/-- JavaScript value as produced by `JSON.parse`: null, booleans,
numbers, strings, arrays and objects.  `undefined` is not a `Js` value
(JSON.parse never yields it); a possibly-undefined value is `Option Js`. -/
inductive Js where
  | null : Js
  | bool (b : Bool) : Js
  | num (n : Int) : Js
  | str (s : String) : Js
  | arr (elems : List Js) : Js
  | obj (fields : List (String × Js)) : Js

/-- Property read `j.k`: a field of an object, `undefined` (`none`) on a
missing field or on a primitive receiver.  Property access on `null`
throws in JavaScript; the service functions model that throw separately. -/
def jGet (j : Js) (k : String) : Option Js :=
  match j with
  | .obj fs => (fs.find? (fun p => p.1 == k)).map (fun p => p.2)
  | _ => none

/-- JavaScript truthiness of a value: null, `false`, `0` and `""` are
falsy, everything else (objects and arrays included) is truthy. -/
def jsTruthyV (j : Js) : Bool :=
  match j with
  | .null => false
  | .bool b => b
  | .num n => n != 0
  | .str s => s != ""
  | .arr _ => true
  | .obj _ => true

/-- Test for a parsed null (property access on null throws). -/
def Js.isNull (j : Js) : Bool :=
  match j with
  | .null => true
  | _ => false

/-- A value other than null fails the null test. -/
theorem Js.isNull_eq_false {j : Js} (h : j ≠ Js.null) : j.isNull = false := by
  cases j <;> first | exact absurd rfl h | rfl

/-- Truthiness of a possibly-undefined value: `undefined` is falsy. -/
def jsTruthy (j : Option Js) : Bool :=
  match j with
  | none => false
  | some v => jsTruthyV v

/-- The expression `a || d` on a possibly-undefined JavaScript value:
`a` when truthy, otherwise the default `d`. -/
def jsOr (a : Option Js) (d : Js) : Js :=
  match a with
  | some v => if jsTruthyV v then v else d
  | none => d

/-- The expression `t || d` where `t` is the optional response text:
the fallback replaces both `undefined` and the empty string. -/
def strOr (t : Option String) (d : String) : String :=
  match t with
  | some s => if s = "" then d else s
  | none => d

/-- JavaScript ToPropertyKey coercion used by `map[item.id] = v`:
`undefined` becomes the key "undefined", numbers print in decimal,
strings pass through.  Arrays and objects coerce through their own
toString; no claim exercises a composite id, so the composite cases are
modelled to one level (an object prints "[object Object]"). -/
def jsToPropertyKey (v : Option Js) : String :=
  match v with
  | none => "undefined"
  | some .null => "null"
  | some (.bool b) => if b then "true" else "false"
  | some (.num n) => toString n
  | some (.str s) => s
  | some (.arr _) => ""
  | some (.obj _) => "[object Object]"

/-- Property assignment `m[k] = v` on a plain object: an existing key
keeps its position and takes the new value, a new key is appended. -/
def objSet (m : List (String × α)) (k : String) (v : α) : List (String × α) :=
  if m.any (fun p => p.1 == k) then
    m.map (fun p => if p.1 == k then (k, v) else p)
  else
    m ++ [(k, v)]

/-- The test `hay.includes(needle)` on strings. -/
def strIncludes (hay needle : String) : Bool :=
  decide (needle.data <:+: hay.data)

/-- Substring containment as a proposition: `needle` occurs verbatim
inside `hay`. -/
def StrContains (hay needle : String) : Prop :=
  needle.data <:+: hay.data

instance (hay needle : String) : Decidable (StrContains hay needle) :=
  inferInstanceAs (Decidable (needle.data <:+: hay.data))

/-- Whitespace for the JavaScript `trim()` used by `gradeEssay`:
space, tab, newline, carriage return, vertical tab, form feed and
no-break space (the common members of the WhiteSpace/LineTerminator
classes). -/
def isJsSpace (c : Char) : Bool :=
  c = ' ' || c = '\t' || c = '\n' || c = '\r' || c = '\x0b' || c = '\x0c' || c = ' '

/-- The call `s.trim()`: leading and trailing whitespace removed. -/
def jsTrim (s : String) : String :=
  ⟨((s.data.dropWhile isJsSpace).reverse.dropWhile isJsSpace).reverse⟩

/-- The test `!apiKey` on `process.env.API_KEY`: the credential is
absent (`undefined`) or the empty string.  `src/services/geminiService.ts`
lines 14-18 and `src/unnamed/part_000` lines 37-41 both use exactly this
falsiness test. -/
def keyMissing (apiKey : Option String) : Bool :=
  match apiKey with
  | none => true
  | some s => s = ""

/-- checkForApiKey from `src/services/geminiService.ts` lines 14-18:
throws its instructive message when the key is falsy. -/
def checkForApiKeyMessage : String :=
  "API Key is missing. Please go to Vercel Settings -> Environment Variables and add API_KEY."

/-- checkForApiKey as an `Except`: the thrown error carries the message
the catch blocks later inspect with `includes("API Key")`. -/
def checkForApiKey (apiKey : Option String) : Except String Unit :=
  if keyMissing apiKey then .error checkForApiKeyMessage else .ok ()

/-- getAIClient from `src/unnamed/part_000` lines 37-41: re-reads the
key on every call and throws when it is falsy; modelled by its error
outcome (the constructed client itself is the external collaborator). -/
def getAIClient (apiKey : Option String) : Except String Unit :=
  if keyMissing apiKey then .error "API_KEY environment variable is missing." else .ok ()

/-- isApiConnected from `src/App.tsx` line 121: the boolean value of
`process.env.API_KEY && process.env.API_KEY !== "undefined"`. -/
def isApiConnected (apiKey : Option String) : Bool :=
  match apiKey with
  | none => false
  | some s => s ≠ "" && s ≠ "undefined"

/-! ## Question catalog merge (`allQuestions`, src/App.tsx lines 41-47
and src/unnamed/part_001 lines 42-55 — the two variants are textually
identical) -/

/-- Lookup in the `Map` built by `new Map(customQuestions.map(q => [q.id, q]))`:
for a duplicated id the last entry wins, exactly as repeated `Map.set`. -/
def mapGet (custom : List Question) (id : String) : Option Question :=
  match custom with
  | [] => none
  | q :: rest =>
    match mapGet rest id with
    | some r => some r
    | none => if q.id = id then some q else none

/-- The effective catalog: base entries with edited versions substituted
(`mergedInitial`), then custom entries whose id is not in the base
(`newCustom`), with every entry whose id is in `deletedIds` removed. -/
def allQuestionsMerge (initialQuestions customQuestions : List Question)
    (deletedIds : List String) : List Question :=
  let mergedInitial := initialQuestions.map (fun q =>
    match mapGet customQuestions q.id with
    | some c => c
    | none => q)
  let newCustom := customQuestions.filter (fun q =>
    !(initialQuestions.any (fun b => b.id == q.id)))
  (mergedInitial ++ newCustom).filter (fun q => !(deletedIds.contains q.id))

/-- The catalog merge as section 4.4 of the spec words it, written
independently of the code for comparison: (1) replace any base entry
whose id appears in the edited set with the edited (latest stored)
version, keeping base order, (2) append edited entries whose id is not
in the base catalog, in storage order, (3) remove every entry whose id
is in the soft-delete set. -/
def specEffectiveCatalog (base edited : List Question)
    (deleted : List String) : List Question :=
  let replaced := base.map (fun q => (edited.reverse.find? (fun e => e.id == q.id)).getD q)
  let appended := edited.filter (fun e => decide (e.id ∉ base.map (fun b => b.id)))
  (replaced ++ appended).filter (fun q => decide (q.id ∉ deleted))

/-! ## Per-question state (`QuestionState`, `updateQuestionState`,
src/App.tsx lines 95-103 and src/unnamed/part_001 lines 115-128) -/

/-- Cloze exercise payload stored in a question state. -/
structure ClozeData where
  textWithBlanks : String
  blanks : List ClozeBlank
deriving Repr, DecidableEq

/-- QuestionState: the per-question work product, fields as read and
written by both App variants (string fields, plus optional
deconstruction and cloze payload). -/
structure QuestionState where
  generatorEssay : String
  graderEssay : String
  graderFeedback : String
  realTimeEssay : String
  deconstruction : Option String := none
  clozeData : Option ClozeData := none
deriving Repr, DecidableEq

/-- The defaults object `{ generatorEssay: "", graderEssay: "",
graderFeedback: "", realTimeEssay: "" }` used when no record exists. -/
def emptyQuestionState : QuestionState :=
  { generatorEssay := "", graderEssay := "", graderFeedback := "", realTimeEssay := "" }

/-- `Partial<QuestionState>`: every field optional; `none` means the
update does not mention the field. -/
structure QSUpdate where
  generatorEssay : Option String := none
  graderEssay : Option String := none
  graderFeedback : Option String := none
  realTimeEssay : Option String := none
  deconstruction : Option String := none
  clozeData : Option ClozeData := none
deriving Repr, DecidableEq

/-- Spread semantics for one optional field: the update value when the
update mentions the field, otherwise the base value. -/
def optSet {α : Type} (u base : Option α) : Option α :=
  match u with
  | some d => some d
  | none => base

/-- The spread `{...base, ...updates}`: fields present in the update win,
all other fields keep their base value. -/
def applyUpdate (base : QuestionState) (u : QSUpdate) : QuestionState :=
  { generatorEssay := u.generatorEssay.getD base.generatorEssay
    graderEssay := u.graderEssay.getD base.graderEssay
    graderFeedback := u.graderFeedback.getD base.graderFeedback
    realTimeEssay := u.realTimeEssay.getD base.realTimeEssay
    deconstruction := optSet u.deconstruction base.deconstruction
    clozeData := optSet u.clozeData base.clozeData }

/-- updateQuestionState: merge a partial update into the per-id record,
starting from the empty-string defaults when no record exists yet. -/
def updateQuestionState (states : String → Option QuestionState)
    (id : String) (u : QSUpdate) : String → Option QuestionState :=
  fun k => if k = id then some (applyUpdate ((states id).getD emptyQuestionState) u) else states k

/-- Two partial updates touch disjoint field sets. -/
def DisjointUpdates (u1 u2 : QSUpdate) : Prop :=
  (u1.generatorEssay.isSome → u2.generatorEssay = none) ∧
  (u1.graderEssay.isSome → u2.graderEssay = none) ∧
  (u1.graderFeedback.isSome → u2.graderFeedback = none) ∧
  (u1.realTimeEssay.isSome → u2.realTimeEssay = none) ∧
  (u1.deconstruction.isSome → u2.deconstruction = none) ∧
  (u1.clozeData.isSome → u2.clozeData = none)

instance (u1 u2 : QSUpdate) : Decidable (DisjointUpdates u1 u2) := by
  unfold DisjointUpdates
  infer_instance

/-! ## Save and delete handlers -/

/-- Catalog slice of the application state: the durable custom/edited
question list and the soft-delete id list. -/
structure CatalogState where
  customQuestions : List Question
  deletedIds : List String
deriving Repr, DecidableEq

/-- handleSaveQuestion from `src/App.tsx` lines 105-112: replace every
stored entry with the saved id, or append; the deleted-id list is not
touched. -/
def appMainSaveQuestion (s : CatalogState) (question : Question) : CatalogState :=
  { customQuestions :=
      if s.customQuestions.any (fun q => q.id == question.id) then
        s.customQuestions.map (fun q => if q.id == question.id then question else q)
      else
        s.customQuestions ++ [question]
    deletedIds := s.deletedIds }

/-- handleDeleteQuestion from `src/App.tsx` lines 114-119 (after the
confirm dialog is accepted): the id is appended to the deleted list and
the stored custom list is left alone. -/
def appMainDeleteQuestion (s : CatalogState) (id : String) : CatalogState :=
  { customQuestions := s.customQuestions
    deletedIds := s.deletedIds ++ [id] }

/-- handleSaveQuestion from `src/unnamed/part_001` lines 137-156: an id
present in the deleted list is first removed from it, then the custom
list is updated as in the main variant. -/
def appV2SaveQuestion (s : CatalogState) (question : Question) : CatalogState :=
  { customQuestions :=
      if s.customQuestions.any (fun q => q.id == question.id) then
        s.customQuestions.map (fun q => if q.id == question.id then question else q)
      else
        s.customQuestions ++ [question]
    deletedIds :=
      if s.deletedIds.contains question.id then
        s.deletedIds.filter (fun i => i ≠ question.id)
      else
        s.deletedIds }

/-- handleDeleteQuestion from `src/unnamed/part_001` lines 158-171
(after the confirm dialog is accepted): an id with the custom prefix is
removed from storage outright; any other id is soft-deleted and its
custom override removed. -/
def appV2DeleteQuestion (s : CatalogState) (id : String) : CatalogState :=
  if "custom-".data.isPrefixOf id.data then
    { customQuestions := s.customQuestions.filter (fun q => q.id ≠ id)
      deletedIds := s.deletedIds }
  else
    { customQuestions := s.customQuestions.filter (fun q => q.id ≠ id)
      deletedIds := s.deletedIds ++ [id] }


/-! ## Prompt builders (src/services/geminiService.ts) -/

def modelAnswerInstructions8 : String :=
  "
      **STRICT STRUCTURE FOR 8 MARKS (Part a):**
      
      **1. Deconstruct the Question (Mental Step):**
      - Identify the \"AND\" in the question. You MUST address the part before the \"and\" and the part after the \"and\".
      - Even if the second part is small (\"consider the extent\"), you must follow the structure below.
      
      **2. Introduction (AO1 - Bookwork):**
      - Define the Key Terms exactly as they appear in the CIE Textbook. 
      - Do not \"wing it\". Use formal definitions.
      
      **3. AO2 Analysis (The Core):**
      - **Rule:** Analyze Side A and Side B **INDEPENDENTLY**. 
      - **Do NOT compare** them here. Comparison belongs in AO3.
      - **Paragraph Structure:** Topic Sentence -> Logical Chain (A leads to B leads to C leads to Z) -> Economic Term.
      - **Content:** 
        - Explain the mechanism for the part before the \"and\".
        - Explain the mechanism for the part after the \"and\".
      
      **4. AO3 Evaluation (The Judgment):**
      - **Task:** Answer the \"Extent\" or \"Whether\".
      - **Structure:** 
        - \"In what specific situation is A true?\"
        - \"In what specific situation is B true?\"
        - **Conclusion:** A clear judgment supported by a specific justification (not just \"it is not always effective\").
      "

def modelAnswerInstructions12 : String :=
  "
      **STRICT STRUCTURE FOR 12 MARKS (Part b):**
      
      **1. Introduction:**
      - Define Key Terms (if not done in Part a).
      - **Crucial:** State your intended answer/thesis immediately (e.g., \"Inflation is generally more serious than unemployment because...\"). Do not wait until the end to reveal your stance.
      
      **2. Body Paragraphs (AO2 - Analysis):**
      - **Requirement:** 6 distinct points/paragraphs (e.g., 3 Pros / 3 Cons, or Policy A + 2 limits / Policy B + 2 limits).
      - **Paragraph Formula:** 
        1. **Topic Sentence:** State the specific point.
        2. **Logical Chain:** Explain the mechanism step-by-step (A -> B -> C -> Z). Never skip steps.
        3. **Economic Terminology:** Use precise words.
      
      **3. Conclusion (AO3 - Evaluation):**
      - **The Judgment:** Provide a final decision.
      - **The Justification:** Provide at least 2 specific reasons (e.g., \"It depends on the time lag...\", \"It depends on the elasticity...\").
      - **Context:** Must relate to the specific economy type mentioned (e.g., Developing, High Income).
      "

def modelAnswerInstructionsGeneric : String :=
  "
      **General High-Standard Requirements:**
      - **AO1:** Textbook definitions.
      - **AO2:** Detailed analytical chains. A -> B -> C -> Z.
      - **AO3:** Evaluate \"Depends on\" factors and conclude.
      "

/-- The maxMarks discriminator of generateModelAnswer
(src/services/geminiService.ts lines 26-80): 8 selects the part-a
structure, 12 the part-b structure, anything else the generic block. -/
def generateModelAnswerInstructions (maxMarks : Nat) : String :=
  if maxMarks = 8 then modelAnswerInstructions8
  else if maxMarks = 12 then modelAnswerInstructions12
  else modelAnswerInstructionsGeneric

def generateModelAnswerPrompt (question : Question) : String :=
  "
      You are a **world-class Cambridge International AS Level Economics Examiner and Tutor**.
      Write a **perfect, full-mark model essay** for the following question.
      
      **Question:** " ++ question.questionText ++ "
      **Max Marks:** " ++ toString question.maxMarks ++ "
      **Mark Scheme Guidance:**
      " ++ question.markScheme ++ "
      
      **Writing Philosophy:**
      1. **AO1 is Bookwork:** Definitions must be textbook accurate.
      2. **AO2 is Logic:** Every paragraph must have a Topic Sentence and a complete Logical Chain (A->Z).
      3. **AO3 is Extent:** For \"Extent/Assess\" questions, AO2 analyzes sides separately. AO3 provides the comparison (\"When is A better? When is B better?\").
      
      **Instructions:**
      " ++ generateModelAnswerInstructions question.maxMarks ++ "
      
      - The tone should be academic, professional, and exam-focused.
      - Use bold headers for **Introduction**, **Analysis**, and **Evaluation**.
    "

def generateQuestionDeconstructionPrompt (questionText : String) : String :=
  "
        You are an expert Economics tutor helping a student decode an exam question.
        
        **Question:** \"" ++ questionText ++ "\"
        
        **Official CIE Command Word Definitions:**
        The student must adhere to these definitions when answering:
        - **Analyse**: examine in detail to show meaning, identify elements and the relationship between them
        - **Assess**: make an informed judgement
        - **Calculate**: work out from given facts, figures or information
        - **Comment**: give an informed opinion
        - **Compare**: identify/comment on similarities and/or differences
        - **Consider**: review and respond to given information
        - **Define**: give precise meaning
        - **Demonstrate**: show how or give an example
        - **Describe**: state the points of a topic / give characteristics and main features
        - **Discuss**: write about issue(s) or topic(s) in depth in a structured way
        - **Evaluate**: judge or calculate the quality, importance, amount, or value of something
        - **Explain**: set out purposes or reasons / make the relationships between things clear / say why and/or how and support with relevant evidence
        - **Give**: produce an answer from a given source or recall/memory
        - **Identify**: name/select/recognise
        - **Justify**: support a case with evidence/argument
        - **Outline**: set out the main points
        - **State**: express in clear terms

        **Task:** 
        Break down this question prompt into its components.
        
        **Required Output Format (Markdown):**
        
        **1. Command Word Analysis**
        - **Command Word:** [e.g. \"Assess\" or \"Explain\"]
        - **Definition:** [Quote the specific definition from the list above]
        - **Implication:** [Briefly explain what this means for the essay structure, e.g., \"Requires a two-sided argument ending with a judgment\"]

        **2. AO1 (Knowledge & Understanding)**
        *Identifying Key Terms:*
        - \"[Quote word from question]\" → Requires definition of...
        - \"[Quote phrase]\" → Requires explanation of concept...
        
        **3. AO2 (Analysis)**
        *Identifying the Mechanism:*
        - \"[Quote 'Explain', 'Analyse' or causal phrase]\" → Requires a logical chain connecting [X] to [Y].
        - Identify the specific relationships to analyse (e.g., \"Relationship between Interest Rates and Investment\").
        - *Guidance:* Refer back to the command word definition (e.g., if \"Explain\", ensure relationships are made clear).
        
        **4. AO3 (Evaluation)**
        *Identifying the Debate:*
        - \"[Quote 'Assess', 'Evaluate', 'Consider', 'Discuss']\" → Requires judgment.
        - *Context Clue:* \"[Quote specific context e.g., 'low income country']\" → Evaluation must focus on this specific scenario.
        - Identify the counter-argument or \"it depends\" factors required here.
        
        Keep it concise and actionable.
        "

def gradeRubric8Marks : String :=
  "
       **Strict Marking Logic (Part a - 8 Marks):**
       
       **Structure Check (Crucial):**
       - Did the student identify the \"AND\" in the question? 
       - Did they address the part *before* the \"and\" and the part *after* the \"and\"?
       - **AO2 Rule:** Did they analyze the sides **independently** without mixing comparison into the analysis paragraphs? Comparison belongs in Conclusion.
       
       **AO1 (3 marks): Bookwork**
       - Definitions must be precise textbook definitions.
       - \"Inflation is rising prices\" = 0. \"Sustained increase in general price level\" = 1.
       
       **AO2 (3 marks): Logic Chains**
       - Paragraphs must follow: Topic Sentence -> Logical Chain (A->B->C->Z) -> Terminology.
       - Penalize \"Assertions\" (statements without the 'why').
       
       **AO3 (2 marks): Evaluation**
       - 1 mark: Answering the \"extent\" (When is A true? When is B true?).
       - 1 mark: Valid justification/Conclusion.
       "

def gradeRubric12Marks : String :=
  "
       **Strict Marking Logic (Part b - 12 Marks):**
       
       **Structure Check:**
       - **Intro:** Did they answer the question/state a thesis immediately?
       - **Body:** Are there distinct points (e.g. 3 Pros / 3 Cons)? One point per paragraph?
       
       **AO1 + AO2 (Max 8 marks):**
       - **Chain of Reasoning:** Look for \"A -> B -> C -> Z\". 
       - If they skip steps (e.g., \"Investment leads to growth\" without explaining AD or LRAS), mark as L2 (max 5 marks).
       - **Context:** Must apply to the specific context (e.g. \"Developing Economy\").
       
       **AO3 (Max 4 marks):**
       - **Judgment:** A clear final decision.
       - **Justification:** Must include \"Depends on\" factors (Time lags, Elasticity, etc.).
       - **Justification Score:** 2 marks are strictly for the justifications. \"Not always effective\" is not enough. Why?
       "

/-- The maxMarks discriminator of gradeEssay (src/services/geminiService.ts
lines 218-259): 8 selects the part-a rubric, everything else the
part-b 12-mark rubric (there is no third branch). -/
def gradeEssayGradingRubric (maxMarks : Nat) : String :=
  if maxMarks = 8 then gradeRubric8Marks else gradeRubric12Marks

/-- Character class `[a-zA-Z+]` of the MIME-sniffing regex in gradeEssay. -/
def mimeCharOk (c : Char) : Bool :=
  c.isAlpha || c = '+'

/-- Strip an exact literal prefix, returning the remainder. -/
def stripChars (p l : List Char) : Option (List Char) :=
  match p, l with
  | [], rest => some rest
  | _ :: _, [] => none
  | a :: ps, b :: ls => if a = b then stripChars ps ls else none

/-- The anchored regex match of gradeEssay
(src/services/geminiService.ts line 197): the literal data:image/ then a
nonempty captured run of [a-zA-Z+] then the literal ;base64, — on
success the captured subtype and the remaining base64 body. -/
def dataUriMatch (img : String) : Option (String × String) :=
  match stripChars "data:image/".data img.data with
  | none => none
  | some rest =>
    if (rest.takeWhile mimeCharOk).isEmpty then none
    else
      match stripChars ";base64,".data (rest.dropWhile mimeCharOk) with
      | none => none
      | some body => some (⟨rest.takeWhile mimeCharOk⟩, ⟨body⟩)

/-- MIME type for one attached image: the captured subtype when the
data-URI prefix matches, otherwise the default image/jpeg. -/
def sniffMime (img : String) : String :=
  match dataUriMatch img with
  | some (sub, _) => "image/" ++ sub
  | none => "image/jpeg"

/-- The replace call of gradeEssay (line 199) stripping the same
anchored data-URI pattern: the prefix is removed when it matches,
otherwise the string is unchanged. -/
def cleanBase64 (img : String) : String :=
  match dataUriMatch img with
  | some (_, body) => body
  | none => img

/-- One content part of the generative-API request. -/
inductive Part where
  | inlineData (mimeType body : String) : Part
  | text (t : String) : Part
deriving Repr, DecidableEq

def gradeEssayImageNote (n : Nat) : String :=
  "\n\n[Note: The student has attached " ++ toString n ++ " page(s) of handwritten notes. Please treat them as a sequence constituting the full answer.]"

/-- The essayContentText computation of gradeEssay
(src/services/geminiService.ts lines 192-216): with images attached, a
whitespace-only essay is replaced by the placeholder sentence, and the
attachment note is appended either way. -/
def gradeEssayContentText (studentEssay : String) (imagesBase64 : List String) : String :=
  if imagesBase64.length > 0 then
    if jsTrim studentEssay = "" then
      "See attached images for the student\x27s handwritten essay." ++ gradeEssayImageNote imagesBase64.length
    else
      studentEssay ++ gradeEssayImageNote imagesBase64.length
  else
    studentEssay

def gradeEssayPrompt (question : Question) (essayContentText : String) : String :=
  "
      You are a **strict** Cambridge International AS Level Economics (9708) Examiner.
      Your goal is to grade the student's essay to professional standards.

      **CRITICAL GRADING PHILOSOPHY:**
      1. **AO1 is Bookwork:** If definitions don't match the textbook, penalize.
      2. **AO2 is Logical Chains:** \"A causes Z\" is an assertion (0 marks). \"A causes B, which causes C, leading to Z\" is analysis.
      3. **Structure Matters:** 
         - For 8-mark questions, ensure they split the answer based on the \"AND\" in the prompt.
         - For 12-mark questions, ensure they have an introduction that answers the question and a balanced body.
      4. **Evaluation (AO3):** Requires \"When/If\" logic (e.g., \"This policy is best WHEN demand is elastic...\").

      **Question:** " ++ question.questionText ++ "
      **Max Marks:** " ++ toString question.maxMarks ++ "
      
      **Official Mark Scheme Guidance:**
      " ++ question.markScheme ++ "

      **Rubric:**
      " ++ gradeEssayGradingRubric question.maxMarks ++ "

      **Student Essay:**
      " ++ essayContentText ++ "

      **Instructions for Output:**
      1. **Total Score:** Give a specific mark out of " ++ toString question.maxMarks ++ ". Be stingy.
      2. **Breakdown:** Show marks for AO1, AO2, and AO3 separately.
      3. **Detailed Critique:**
         - **Structure Check:** Comment on whether they followed the Part (a) vs Part (b) structure correctly.
         - **Logical Gaps:** Quote where they made an assertion instead of a chain.
         - **Next Step:** Provide one concrete way to improve the logical chain or structure.
    "

/-- The parts array sent by gradeEssay: one inlineData part per image
(sniffed MIME type, stripped base64 body) followed by the text prompt. -/
def gradeEssayParts (question : Question) (studentEssay : String)
    (imagesBase64 : List String) : List Part :=
  imagesBase64.map (fun img => Part.inlineData (sniffMime img) (cleanBase64 img)) ++
    [Part.text (gradeEssayPrompt question (gradeEssayContentText studentEssay imagesBase64))]

/-- The maxMarks discriminator of getRealTimeCoaching
(src/services/geminiService.ts lines 314-322). -/
def getRealTimeCoachingDistribution (maxMarks : Nat) : String :=
  if maxMarks = 8 then "Max Marks Distribution: AO1: 3, AO2: 3, AO3: 2"
  else if maxMarks = 12 then "Max Marks Distribution: AO1+AO2: 8, AO3: 4."
  else "Max Marks: " ++ toString maxMarks

def getRealTimeCoachingPrompt (question : Question) (currentText : String) : String :=
  "
      You are a **strict** Cambridge Economics Examiner watching a student write in real-time.
      
      **Question:** " ++ question.questionText ++ "
      **Total Marks:** " ++ toString question.maxMarks ++ "
      **" ++ getRealTimeCoachingDistribution question.maxMarks ++ "**
      **Mark Scheme:** " ++ question.markScheme ++ "
      **Current Draft:** \"" ++ currentText ++ "\"

      **Grading Standards:**
      - **AO1:** Only award if definitions are precise (e.g. \"SRAS shift\", not just \"supply change\").
      - **AO2:** Only award if **logical chains are complete**. If they jump from A to Z, do not give the mark. They must show the mechanism (A -> B -> C -> Z).
      - **AO3:** Only award for evaluation that refers to the specific context (e.g., \"few natural resources\").

      **Task:**
      1. Estimate current AO1, AO2, AO3 scores (integers). Be stingy.
      2. Calculate Total.
      3. **Advice:** Identify the most immediate logical gap. 
         - *Example:* \"You said depreciation causes inflation. Explain WHY. Mention import prices and production costs.\"
         - *Example:* \"You defined inflation loosely. Use 'sustained increase in general price level'.\"
      4. Keep advice brief (under 50 words).
    "

def generateClozeExercisePrompt (modelEssay : String) : String :=
  "
      You are an expert Economics teacher creating a \"Logic Chain\" completion exercise.
      Take the provided model essay and create a fill-in-the-blank (cloze) test.

      **Instructions:**
      1. Identify **8 to 12** critical parts to remove.
      2. Target:
         - **AO1:** Key definitions/terms.
         - **AO2:** Logical connectors or middle steps in analysis chains.
         - **AO3:** Evaluative qualifiers.
      3. Replace with [BLANK_1], [BLANK_2], etc.
      4. Return JSON with the text and the list of blanks + hints.
      
      **Input Essay:**
      " ++ modelEssay ++ "
    "

/-- Lower-case hexadecimal digit. -/
def hexDigit (n : Nat) : Char :=
  if n < 10 then Char.ofNat (48 + n) else Char.ofNat (87 + n)

/-- JSON.stringify escaping of one character inside a string literal. -/
def jsonEscapeChar (c : Char) : List Char :=
  if c = '"' then ['\\', '"']
  else if c = '\\' then ['\\', '\\']
  else if c = '\x08' then ['\\', 'b']
  else if c = '\t' then ['\\', 't']
  else if c = '\n' then ['\\', 'n']
  else if c = '\x0c' then ['\\', 'f']
  else if c = '\r' then ['\\', 'r']
  else if c.toNat < 32 then ['\\', 'u', '0', '0', hexDigit (c.toNat / 16), hexDigit (c.toNat % 16)]
  else [c]

/-- JSON.stringify of a string: surrounding quotes and escapes. -/
def jsonQuote (s : String) : String :=
  ⟨'"' :: s.data.foldr (fun c acc => jsonEscapeChar c ++ acc) ['"']⟩

/-- JSON.stringify of one comparisons entry `\x7bid, original, studentAnswer\x7d`. -/
def stringifyComparison (c : Int × String × String) : String :=
  "\x7b\"id\":" ++ toString c.1 ++ ",\"original\":" ++ jsonQuote c.2.1 ++
    ",\"studentAnswer\":" ++ jsonQuote c.2.2 ++ "\x7d"

/-- JSON.stringify of the comparisons array built by evaluateClozeAnswers. -/
def stringifyComparisons (cs : List (Int × String × String)) : String :=
  "[" ++ String.intercalate "," (cs.map stringifyComparison) ++ "]"

/-- The comparisons array of evaluateClozeAnswers
(src/services/geminiService.ts lines 446-450): id, original text, and
the student answer with the `|| "(No answer)"` fallback for a missing
or empty answer. -/
def clozeComparisons (blanks : List ClozeBlank) (userAnswers : List (Int × String)) :
    List (Int × String × String) :=
  blanks.map (fun b =>
    (b.id, b.original,
      strOr ((userAnswers.find? (fun p => p.1 == b.id)).map (fun p => p.2)) "(No answer)"))

/-- JSON.stringify of one inputs entry `\x7bref, text, ms\x7d` of
analyzeTopicMarkSchemes. -/
def stringifyInput (i : String × String × String) : String :=
  "\x7b\"ref\":" ++ jsonQuote i.1 ++ ",\"text\":" ++ jsonQuote i.2.1 ++
    ",\"ms\":" ++ jsonQuote i.2.2 ++ "\x7d"

/-- JSON.stringify of the inputs array of analyzeTopicMarkSchemes. -/
def stringifyInputs (is : List (String × String × String)) : String :=
  "[" ++ String.intercalate "," (is.map stringifyInput) ++ "]"

/-- The inputs array of analyzeTopicMarkSchemes
(src/services/geminiService.ts lines 517-521): reference string,
question text and mark scheme per question; maxMarks is not included. -/
def analyzeInputs (questions : List Question) : List (String × String × String) :=
  questions.map (fun q =>
    (q.year ++ " " ++ q.variant ++ " Q" ++ q.questionNumber, q.questionText, q.markScheme))

def evaluateClozeAnswersPrompt (comparisons : List (Int × String × String)) : String :=
  "
      Grade the student's answers for a fill-in-the-blank Economics exercise.
      
      **Data:**
      " ++ stringifyComparisons comparisons ++ "

      **Instructions:**
      For each item:
      1. Compare Student Answer to Original.
      2. Score (1-5): 5 = Perfect logic/meaning (exact words not needed), 1 = Incorrect.
      3. Provide a 1-sentence comment.
    "

def analyzeTopicMarkSchemesPrompt (chapterTitle : String) (inputs : List (String × String × String)) : String :=
  "
      You are a senior Cambridge Economics Examiner.
      I have provided a list of questions and their mark schemes for the chapter: \"" ++ chapterTitle ++ "\".
      
      **Your Task:**
      Analyze these to create a \"Master Summary\" of requirements for this chapter.
      
      **Specific Focus on Debates & Evaluation:**
      This chapter likely contains comparative debates (e.g., Market vs Mixed Economy, Indirect Tax vs Subsidy).
      I need you to extract these specific comparisons and evaluations.
      
      **Input Data:**
      " ++ stringifyInputs inputs ++ "

      **Output Requirements (JSON):**
      
      1. **ao1 (Knowledge):** Key definitions/facts.
      2. **ao2 (Analysis):** Common logical chains.
      3. **ao3 (Evaluation):** General evaluation points.
      
      4. **debates (NEW SECTION):** 
         Identify specific comparative topics or policy evaluations found in these questions.
         For each topic (e.g., \"Planned Economy\", \"Subsidies\", \"Market Mechanism\"), provide:
         - **pros**: List of benefits/advantages/effectiveness arguments.
         - **cons**: List of limitations/disadvantages/problems (The \"However...\" points).
         - **dependencies**: List of \"Depends on...\" factors (e.g., \"Depends on PED\", \"Depends on government information\").
      
      For each point in all sections, provide 'sourceRefs' (e.g. [\"2023 May/June Q2a\"]).
    "

/-! ## Service entry points

Each entry point takes the credential and an oracle for the external
call: for the plain-text builders the oracle is the response text (or
the message of the error the transport throws); for the JSON builders it
is the parsed response value (or the error thrown by the transport or by
JSON.parse).  The whole try body after checkForApiKey is the oracle;
every catch block below is translated from the source. -/

/-- The catch block of generateModelAnswer
(src/services/geminiService.ts lines 108-114). -/
def generateModelAnswerCatch (e : String) : String :=
  if strIncludes e "API Key" then
    "Error: API Key is missing in Vercel Settings. Please configure it and redeploy."
  else
    "Failed to generate essay. Please check API key or try again."

/-- generateModelAnswer (src/services/geminiService.ts lines 20-115):
the returned string under every outcome of the key check and the call. -/
def generateModelAnswer (apiKey : Option String) (net : Except String (Option String)) : String :=
  match checkForApiKey apiKey with
  | .error e => generateModelAnswerCatch e
  | .ok _ =>
    match net with
    | .error e => generateModelAnswerCatch e
    | .ok text => strOr text "Error generating response."

/-- generateQuestionDeconstruction (src/services/geminiService.ts lines
117-184): its catch returns one fixed string for every error. -/
def generateQuestionDeconstruction (apiKey : Option String)
    (net : Except String (Option String)) : String :=
  match checkForApiKey apiKey with
  | .error _ => "Failed to analyze question. Check API Key."
  | .ok _ =>
    match net with
    | .error _ => "Failed to analyze question. Check API Key."
    | .ok text => strOr text "Error analyzing question."

/-- The catch block of gradeEssay (src/services/geminiService.ts lines
301-307). -/
def gradeEssayCatch (e : String) : String :=
  if strIncludes e "API Key" then
    "Error: API Key is missing in Vercel Settings."
  else
    "Failed to grade essay. Please check API key."

/-- gradeEssay result (src/services/geminiService.ts lines 186-308). -/
def gradeEssay (apiKey : Option String) (net : Except String (Option String)) : String :=
  match checkForApiKey apiKey with
  | .error e => gradeEssayCatch e
  | .ok _ =>
    match net with
    | .error e => gradeEssayCatch e
    | .ok text => strOr text "Error grading essay."

/-- Result record of getRealTimeCoaching: the five fields of the object
literal at src/services/geminiService.ts lines 368-374. -/
structure CoachingResult where
  ao1 : Js
  ao2 : Js
  ao3 : Js
  total : Js
  advice : Js

/-- The catch result of getRealTimeCoaching (line 377). -/
def coachingCatchResult : CoachingResult :=
  { ao1 := .num 0, ao2 := .num 0, ao3 := .num 0, total := .num 0, advice := .str "Check API Key" }

/-- getRealTimeCoaching (src/services/geminiService.ts lines 310-379):
each field defaulted with `|| 0` (or the fallback advice); property
access on a parsed null throws into the catch. -/
def getRealTimeCoaching (apiKey : Option String) (call : Except Unit Js) : CoachingResult :=
  match checkForApiKey apiKey with
  | .error _ => coachingCatchResult
  | .ok _ =>
    match call with
    | .error _ => coachingCatchResult
    | .ok json =>
      if json.isNull then coachingCatchResult else
      { ao1 := jsOr (jGet json "ao1") (.num 0)
        ao2 := jsOr (jGet json "ao2") (.num 0)
        ao3 := jsOr (jGet json "ao3") (.num 0)
        total := jsOr (jGet json "total") (.num 0)
        advice := jsOr (jGet json "advice") (.str "Keep writing...") }

/-- Result object of generateClozeExercise: the raw field reads at
src/services/geminiService.ts lines 428-431, with no defaulting, so
either field can be undefined. -/
structure ClozeGenResult where
  textWithBlanks : Option Js
  blanks : Option Js

/-- generateClozeExercise (src/services/geminiService.ts lines 381-436):
null on any thrown error, otherwise the undefaulted field reads. -/
def generateClozeExercise (apiKey : Option String) (call : Except Unit Js) :
    Option ClozeGenResult :=
  match checkForApiKey apiKey with
  | .error _ => none
  | .ok _ =>
    match call with
    | .error _ => none
    | .ok json =>
      if json.isNull then none
      else some { textWithBlanks := jGet json "textWithBlanks", blanks := jGet json "blanks" }

/-- One entry of the cloze feedback map: the raw score and comment reads
at src/services/geminiService.ts lines 494-497. -/
structure ClozeFeedbackJs where
  score : Option Js
  comment : Option Js

/-- One pass of the forEach loop of evaluateClozeAnswers: each item
inserts under its own id coerced to a property key; an item that is null
throws (property access) into the catch. -/
def clozeFeedbackGo (items : List Js) (m : List (String × ClozeFeedbackJs)) :
    Except Unit (List (String × ClozeFeedbackJs)) :=
  match items with
  | [] => .ok m
  | item :: rest =>
    if item.isNull then .error ()
    else clozeFeedbackGo rest (objSet m (jsToPropertyKey (jGet item "id"))
        { score := jGet item "score", comment := jGet item "comment" })

/-- The forEach loop of evaluateClozeAnswers building the feedback map,
starting from the empty object. -/
def clozeFeedbackFold (items : List Js) : Except Unit (List (String × ClozeFeedbackJs)) :=
  clozeFeedbackGo items []

set_option linter.unusedVariables false in
/-- evaluateClozeAnswers (src/services/geminiService.ts lines 438-507):
null on any thrown error; an absent or non-array feedback field yields
the empty map; otherwise the map built by the forEach loop.  The blanks
and userAnswers arguments feed only the prompt (clozeComparisons), not
the returned map. -/
def evaluateClozeAnswers (apiKey : Option String) (blanks : List ClozeBlank)
    (userAnswers : List (Int × String)) (call : Except Unit Js) :
    Option (List (String × ClozeFeedbackJs)) :=
  match checkForApiKey apiKey with
  | .error _ => none
  | .ok _ =>
    match call with
    | .error _ => none
    | .ok json =>
      if json.isNull then none else
      match jGet json "feedback" with
      | some (.arr items) =>
        match clozeFeedbackFold items with
        | .error _ => none
        | .ok m => some m
      | _ => some []

/-- Result record of analyzeTopicMarkSchemes: the object literal at
src/services/geminiService.ts lines 611-619 (lastUpdated is the
caller-clock ISO string, passed in as `now`). -/
structure ChapterAnalysisJs where
  chapter : String
  lastUpdated : String
  questionCount : Nat
  ao1 : Js
  ao2 : Js
  ao3 : Js
  debates : Js

/-- analyzeTopicMarkSchemes (src/services/geminiService.ts lines
509-625): null on any thrown error, otherwise the four collections
defaulted with `|| []`. -/
def analyzeTopicMarkSchemes (apiKey : Option String) (call : Except Unit Js)
    (chapterTitle : String) (questions : List Question) (now : String) :
    Option ChapterAnalysisJs :=
  match checkForApiKey apiKey with
  | .error _ => none
  | .ok _ =>
    match call with
    | .error _ => none
    | .ok json =>
      if json.isNull then none else
      some { chapter := chapterTitle
             lastUpdated := now
             questionCount := questions.length
             ao1 := jsOr (jGet json "ao1") (.arr [])
             ao2 := jsOr (jGet json "ao2") (.arr [])
             ao3 := jsOr (jGet json "ao3") (.arr [])
             debates := jsOr (jGet json "debates") (.arr []) }


/-! ## Substring helpers -/

/-- A string occurs inside itself. -/
theorem strContains_self (s : String) : StrContains s s :=
  List.infix_rfl

/-- Containment is preserved by prepending. -/
theorem strContains_left (a : String) {h n : String} (hc : StrContains h n) :
    StrContains (a ++ h) n := by
  unfold StrContains at hc ⊢
  rw [String.data_append]
  exact hc.trans (List.suffix_append _ _).isInfix

/-- Containment is preserved by appending. -/
theorem strContains_right (b : String) {h n : String} (hc : StrContains h n) :
    StrContains (h ++ b) n := by
  unfold StrContains at hc ⊢
  rw [String.data_append]
  exact hc.trans (List.prefix_append _ _).isInfix

/-- Containment is transitive through an intermediate string. -/
theorem strContains_trans {a b c : String} (hab : StrContains a b) (hbc : StrContains b c) :
    StrContains a c :=
  List.IsInfix.trans hbc hab

/-- C6 counterexample: the claim says every discriminating builder falls
back to a generic rubric for marks other than 8 and 12, but gradeEssay
at maxMarks = 10 selects exactly the 12-mark (long-answer) rubric — its
else branch is the 12-mark rubric, there is no generic third template. -/
theorem c6_counterexample :
    gradeEssayGradingRubric 10 = gradeEssayGradingRubric 12 ∧
    gradeEssayGradingRubric 10 ≠ gradeEssayGradingRubric 8 := by
  constructor
  · rfl
  · decide

/-- C6 (amended): generateModelAnswer and getRealTimeCoaching select
their generic sub-template for every maxMarks other than 8 and 12, while
gradeEssay selects the 12-mark rubric for every maxMarks other than 8. -/
theorem c6_theorem (m : Nat) (h8 : m ≠ 8) (h12 : m ≠ 12) :
    generateModelAnswerInstructions m = modelAnswerInstructionsGeneric ∧
    getRealTimeCoachingDistribution m = "Max Marks: " ++ toString m ∧
    gradeEssayGradingRubric m = gradeRubric12Marks := by
  refine ⟨?_, ?_, ?_⟩
  · simp [generateModelAnswerInstructions, h8, h12]
  · simp [getRealTimeCoachingDistribution, h8, h12]
  · simp [gradeEssayGradingRubric, h8]

/-- C6 witness: the theorem applied at the concrete mark value 10. -/
theorem c6_witness :
    generateModelAnswerInstructions 10 = modelAnswerInstructionsGeneric ∧
    getRealTimeCoachingDistribution 10 = "Max Marks: " ++ toString 10 ∧
    gradeEssayGradingRubric 10 = gradeRubric12Marks :=
  c6_theorem 10 (by decide) (by decide)

/-- C9 counterexample: with the credential equal to the literal string
"undefined" the service-layer check passes (no missing-credential
behavior is triggered), although the claim requires it to be treated as
not configured; only the UI indicator treats it so. -/
theorem c9_counterexample :
    checkForApiKey (some "undefined") = Except.ok () ∧
    getAIClient (some "undefined") = Except.ok () ∧
    isApiConnected (some "undefined") = false :=
  ⟨rfl, rfl, by decide⟩

/-- C9 (amended): the service-layer checks (checkForApiKey and the
part_000 getAIClient) treat the credential as not configured exactly
when it is absent or empty — the literal "undefined" passes them — while
the UI indicator isApiConnected treats absent, empty and the literal
"undefined" as not configured. -/
theorem c9_theorem (k : Option String) :
    ((∃ e, checkForApiKey k = Except.error e) ↔ (k = none ∨ k = some "")) ∧
    ((∃ e, getAIClient k = Except.error e) ↔ (k = none ∨ k = some "")) ∧
    (isApiConnected k = true ↔ (k ≠ none ∧ k ≠ some "" ∧ k ≠ some "undefined")) := by
  match k with
  | none => refine ⟨?_, ?_, ?_⟩ <;> simp [checkForApiKey, getAIClient, isApiConnected, keyMissing]
  | some s =>
    by_cases h : s = ""
    · subst h
      refine ⟨?_, ?_, ?_⟩ <;> simp [checkForApiKey, getAIClient, isApiConnected, keyMissing]
    · by_cases h2 : s = "undefined"
      · subst h2
        refine ⟨?_, ?_, ?_⟩ <;> simp [checkForApiKey, getAIClient, isApiConnected, keyMissing]
      · refine ⟨?_, ?_, ?_⟩ <;>
          simp [checkForApiKey, getAIClient, isApiConnected, keyMissing, h, h2]

/-- C9 witness: the theorem applied at the concrete credential "abc",
which all three checks treat as configured. -/
theorem c9_witness :
    ((∃ e, checkForApiKey (some "abc") = Except.error e) ↔
      ((some "abc" : Option String) = none ∨ some "abc" = some "")) ∧
    ((∃ e, getAIClient (some "abc") = Except.error e) ↔
      ((some "abc" : Option String) = none ∨ some "abc" = some "")) ∧
    (isApiConnected (some "abc") = true ↔
      ((some "abc" : Option String) ≠ none ∧ some "abc" ≠ some "" ∧ some "abc" ≠ some "undefined")) :=
  c9_theorem (some "abc")


/-- Concrete question for the C1 counterexample: a mark value of 5,
whose decimal rendering "5" occurs nowhere in the rendered
chapter-analysis prompt (the character 5 appears neither in the static
template nor in any field of this question). -/
def c1Question : Question :=
  { id := "q-c1", year := "Year", paper := "Paper", variant := "Var",
    questionNumber := "Qa", topic := "Topic", chapter := "Market Failure",
    questionText := "Why?", markScheme := "MS.", maxMarks := 5 }

set_option maxRecDepth 40000 in
/-- C1 counterexample: analyzeTopicMarkSchemes is a prompt builder given
Question values, yet its rendered instruction omits the max-marks value
entirely — the inputs array carries only ref, text and ms — so the
claimed verbatim containment fails at this concrete question. -/
theorem c1_counterexample :
    ¬ StrContains (analyzeTopicMarkSchemesPrompt "Market Failure" (analyzeInputs [c1Question]))
      (toString c1Question.maxMarks) := by
  intro h
  have h5 : '5' ∈ (analyzeTopicMarkSchemesPrompt "Market Failure" (analyzeInputs [c1Question])).data :=
    h.subset (show '5' ∈ (toString c1Question.maxMarks).data by decide)
  revert h5
  decide

/-- C1 (amended): in src/services/geminiService.ts the per-question
builders generateModelAnswer, gradeEssay and getRealTimeCoaching render
the question text, the mark-scheme text and the max-marks value as
verbatim substrings of their instruction string, and the deconstruction
builder renders its caller-supplied question text verbatim; the
chapter-analysis builder does not carry the max-marks value. -/
theorem c1_theorem (question : Question) (questionText essayContentText currentText : String) :
    (StrContains (generateModelAnswerPrompt question) question.questionText ∧
     StrContains (generateModelAnswerPrompt question) question.markScheme ∧
     StrContains (generateModelAnswerPrompt question) (toString question.maxMarks)) ∧
    (StrContains (gradeEssayPrompt question essayContentText) question.questionText ∧
     StrContains (gradeEssayPrompt question essayContentText) question.markScheme ∧
     StrContains (gradeEssayPrompt question essayContentText) (toString question.maxMarks)) ∧
    (StrContains (getRealTimeCoachingPrompt question currentText) question.questionText ∧
     StrContains (getRealTimeCoachingPrompt question currentText) question.markScheme ∧
     StrContains (getRealTimeCoachingPrompt question currentText) (toString question.maxMarks)) ∧
    StrContains (generateQuestionDeconstructionPrompt questionText) questionText := by
  refine ⟨⟨?_, ?_, ?_⟩, ⟨?_, ?_, ?_⟩, ⟨?_, ?_, ?_⟩, ?_⟩ <;>
  · simp only [generateModelAnswerPrompt, gradeEssayPrompt, getRealTimeCoachingPrompt,
      generateQuestionDeconstructionPrompt]
    repeat first
      | exact strContains_left _ (strContains_self _)
      | apply strContains_right


/-! ## C2: catalog merge -/

/-- Helper: find? distributes over append, first list wins. -/
theorem find?_append_match (p : α → Bool) (l₁ l₂ : List α) :
    (l₁ ++ l₂).find? p = match l₁.find? p with | some r => some r | none => l₂.find? p := by
  induction l₁ with
  | nil => rfl
  | cons a t ih =>
    by_cases h : p a
    · simp [List.find?_cons, h]
    · simp only [List.cons_append, List.find?_cons] at *
      simp [h, ih]

/-- Helper: the last-wins Map lookup equals first match on the reversed
storage list. -/
theorem mapGet_eq_find (custom : List Question) (id : String) :
    mapGet custom id = custom.reverse.find? (fun e => e.id == id) := by
  induction custom with
  | nil => rfl
  | cons q rest ih =>
    rw [mapGet, List.reverse_cons, find?_append_match, ih]
    cases rest.reverse.find? (fun e => e.id == id) with
    | some r => rfl
    | none =>
      by_cases h : q.id = id
      · simp [List.find?, h]
      · have hb : (q.id == id) = false := beq_eq_false_iff_ne.mpr h
        simp [List.find?, h, hb]

/-- C2: the effective catalog computed by allQuestions equals the merge
the spec describes (replace edited base entries in base order, append
new edited entries in storage order, drop soft-deleted ids); no entry
with a deleted id survives, so an id in both the edited and deleted sets
is absent; and the merge applied again to the same triple returns an
identical catalog. -/
theorem c2_theorem (base custom : List Question) (deleted : List String) :
    allQuestionsMerge base custom deleted = specEffectiveCatalog base custom deleted ∧
    (∀ q ∈ allQuestionsMerge base custom deleted, q.id ∉ deleted) ∧
    (∀ i, i ∈ custom.map (fun q => q.id) → i ∈ deleted →
      i ∉ (allQuestionsMerge base custom deleted).map (fun q => q.id)) ∧
    allQuestionsMerge base custom deleted = allQuestionsMerge base custom deleted := by
  have habsent : ∀ q ∈ allQuestionsMerge base custom deleted, q.id ∉ deleted := by
    intro q hq
    unfold allQuestionsMerge at hq
    have := List.of_mem_filter hq
    simpa using this
  refine ⟨?_, habsent, ?_, rfl⟩
  · unfold allQuestionsMerge specEffectiveCatalog
    have hmap : (base.map (fun q =>
        match mapGet custom q.id with
        | some c => c
        | none => q)) = base.map (fun q => (custom.reverse.find? (fun e => e.id == q.id)).getD q) := by
      refine List.map_congr_left (fun q _ => ?_)
      rw [mapGet_eq_find]
      cases custom.reverse.find? (fun e => e.id == q.id) <;> rfl
    have hfilt : (custom.filter (fun q => !(base.any (fun b => b.id == q.id)))) =
        custom.filter (fun e => decide (e.id ∉ base.map (fun b => b.id))) := by
      refine List.filter_congr (fun e _ => ?_)
      by_cases h : e.id ∈ base.map (fun b => b.id)
      · obtain ⟨b, hb, hid⟩ := List.mem_map.mp h
        have h1 : (base.any (fun b2 => b2.id == e.id)) = true :=
          List.any_eq_true.mpr ⟨b, hb, by simp [hid]⟩
        simp [h1, h]
      · have h1 : (base.any (fun b2 => b2.id == e.id)) = false := by
          refine List.any_eq_false.mpr (fun b hb hbe => ?_)
          exact h (List.mem_map.mpr ⟨b, hb, eq_of_beq hbe⟩)
        simp [h1, h]
    have hdel : (fun q : Question => !(deleted.contains q.id)) =
        (fun q : Question => decide (q.id ∉ deleted)) := by
      funext q
      by_cases h : q.id ∈ deleted <;> simp [h]
    rw [hmap, hfilt, hdel]
  · intro i hic hid hmem
    obtain ⟨q, hq, hqid⟩ := List.mem_map.mp hmem
    exact habsent q hq (hqid ▸ hid)

/-! ## C7: per-question state merge -/

/-- Helper: getD-style merge of one field commutes for disjoint updates. -/
theorem optGetDComm {α : Type} (a b : Option α) (c : α) (h : a.isSome → b = none) :
    b.getD (a.getD c) = a.getD (b.getD c) := by
  cases a with
  | none => rfl
  | some x =>
    rw [h (by simp)]
    rfl

/-- Helper: optSet-style merge of one optional field commutes for
disjoint updates. -/
theorem optSetComm {α : Type} (a b base : Option α) (h : a.isSome → b = none) :
    optSet b (optSet a base) = optSet a (optSet b base) := by
  cases a with
  | none => cases b <;> rfl
  | some x =>
    rw [h (by simp)]
    rfl

/-- Helper: applyUpdate commutes across disjoint partial updates. -/
theorem applyUpdate_comm (base : QuestionState) (u1 u2 : QSUpdate)
    (h : DisjointUpdates u1 u2) :
    applyUpdate (applyUpdate base u1) u2 = applyUpdate (applyUpdate base u2) u1 := by
  obtain ⟨h1, h2, h3, h4, h5, h6⟩ := h
  unfold applyUpdate
  simp only [QuestionState.mk.injEq]
  exact ⟨optGetDComm _ _ _ h1, optGetDComm _ _ _ h2, optGetDComm _ _ _ h3,
    optGetDComm _ _ _ h4, optSetComm _ _ _ h5, optSetComm _ _ _ h6⟩

/-- C7: updateQuestionState merges a partial update shallowly into the
existing per-id record (or the empty-string defaults when none exists),
leaves other ids untouched, leaves fields absent from the update
unchanged, and for updates with disjoint fields the two application
orders produce identical state. -/
theorem c7_theorem (s : String → Option QuestionState) (id : String) (u u1 u2 : QSUpdate)
    (hdisj : DisjointUpdates u1 u2) :
    updateQuestionState (updateQuestionState s id u1) id u2 =
      updateQuestionState (updateQuestionState s id u2) id u1 ∧
    updateQuestionState s id u id = some (applyUpdate ((s id).getD emptyQuestionState) u) ∧
    (∀ k, k ≠ id → updateQuestionState s id u k = s k) ∧
    (u.generatorEssay = none →
      (applyUpdate ((s id).getD emptyQuestionState) u).generatorEssay =
        ((s id).getD emptyQuestionState).generatorEssay) ∧
    (u.graderEssay = none →
      (applyUpdate ((s id).getD emptyQuestionState) u).graderEssay =
        ((s id).getD emptyQuestionState).graderEssay) ∧
    (u.graderFeedback = none →
      (applyUpdate ((s id).getD emptyQuestionState) u).graderFeedback =
        ((s id).getD emptyQuestionState).graderFeedback) ∧
    (u.realTimeEssay = none →
      (applyUpdate ((s id).getD emptyQuestionState) u).realTimeEssay =
        ((s id).getD emptyQuestionState).realTimeEssay) ∧
    (u.deconstruction = none →
      (applyUpdate ((s id).getD emptyQuestionState) u).deconstruction =
        ((s id).getD emptyQuestionState).deconstruction) ∧
    (u.clozeData = none →
      (applyUpdate ((s id).getD emptyQuestionState) u).clozeData =
        ((s id).getD emptyQuestionState).clozeData) := by
  refine ⟨?_, ?_, ?_, ?_, ?_, ?_, ?_, ?_, ?_⟩
  · funext k
    by_cases hk : k = id
    · subst hk
      simp [updateQuestionState, applyUpdate_comm _ u1 u2 hdisj]
    · simp only [updateQuestionState, if_neg hk]
  · simp [updateQuestionState]
  · intro k hk
    simp only [updateQuestionState, if_neg hk]
  · intro h
    simp [applyUpdate, h]
  · intro h
    simp [applyUpdate, h]
  · intro h
    simp [applyUpdate, h]
  · intro h
    simp [applyUpdate, h]
  · intro h
    simp [applyUpdate, h, optSet]
  · intro h
    simp [applyUpdate, h, optSet]

/-- C7 witness: the theorem applied to the empty state, id "q1", and the
disjoint updates setting generatorEssay to "1" and graderEssay to "2"
(the `\x7ba:1\x7d` then `\x7bb:2\x7d` example of the claim). -/
theorem c7_witness :
    updateQuestionState (updateQuestionState (fun _ => none) "q1" { generatorEssay := some "1" })
        "q1" { graderEssay := some "2" } =
      updateQuestionState (updateQuestionState (fun _ => none) "q1" { graderEssay := some "2" })
        "q1" { generatorEssay := some "1" } ∧
    updateQuestionState (fun _ => none) "q1" { generatorEssay := some "1" } "q1" =
      some (applyUpdate (((fun _ => (none : Option QuestionState)) "q1").getD emptyQuestionState)
        { generatorEssay := some "1" }) ∧
    (∀ k, k ≠ "q1" → updateQuestionState (fun _ => none) "q1" { generatorEssay := some "1" } k =
      (fun _ => (none : Option QuestionState)) k) ∧
    (({ generatorEssay := some "1" } : QSUpdate).generatorEssay = none →
      (applyUpdate (((fun _ => (none : Option QuestionState)) "q1").getD emptyQuestionState)
          { generatorEssay := some "1" }).generatorEssay =
        (((fun _ => (none : Option QuestionState)) "q1").getD emptyQuestionState).generatorEssay) ∧
    (({ generatorEssay := some "1" } : QSUpdate).graderEssay = none →
      (applyUpdate (((fun _ => (none : Option QuestionState)) "q1").getD emptyQuestionState)
          { generatorEssay := some "1" }).graderEssay =
        (((fun _ => (none : Option QuestionState)) "q1").getD emptyQuestionState).graderEssay) ∧
    (({ generatorEssay := some "1" } : QSUpdate).graderFeedback = none →
      (applyUpdate (((fun _ => (none : Option QuestionState)) "q1").getD emptyQuestionState)
          { generatorEssay := some "1" }).graderFeedback =
        (((fun _ => (none : Option QuestionState)) "q1").getD emptyQuestionState).graderFeedback) ∧
    (({ generatorEssay := some "1" } : QSUpdate).realTimeEssay = none →
      (applyUpdate (((fun _ => (none : Option QuestionState)) "q1").getD emptyQuestionState)
          { generatorEssay := some "1" }).realTimeEssay =
        (((fun _ => (none : Option QuestionState)) "q1").getD emptyQuestionState).realTimeEssay) ∧
    (({ generatorEssay := some "1" } : QSUpdate).deconstruction = none →
      (applyUpdate (((fun _ => (none : Option QuestionState)) "q1").getD emptyQuestionState)
          { generatorEssay := some "1" }).deconstruction =
        (((fun _ => (none : Option QuestionState)) "q1").getD emptyQuestionState).deconstruction) ∧
    (({ generatorEssay := some "1" } : QSUpdate).clozeData = none →
      (applyUpdate (((fun _ => (none : Option QuestionState)) "q1").getD emptyQuestionState)
          { generatorEssay := some "1" }).clozeData =
        (((fun _ => (none : Option QuestionState)) "q1").getD emptyQuestionState).clozeData) :=
  c7_theorem (fun _ => none) "q1" { generatorEssay := some "1" } { generatorEssay := some "1" }
    { graderEssay := some "2" } (by constructor <;> simp)


/-! ## C4: missing credential behavior of every entry point -/

/-- C4 counterexample: with no credential configured the cloze-exercise,
cloze-evaluation and chapter-analysis entry points return the null
sentinel — not a string, and carrying no configuration-instruction
message — so the claim fails for these builders. -/
theorem c4_counterexample :
    generateClozeExercise none (Except.ok (Js.obj [])) = none ∧
    evaluateClozeAnswers none [] [] (Except.ok (Js.obj [])) = none ∧
    analyzeTopicMarkSchemes none (Except.ok (Js.obj [])) "Chapter" [] "now" = none :=
  ⟨rfl, rfl, rfl⟩

/-- C4 (amended): with no configured credential every entry point
returns rather than throws; the three plain-text builders return a
string mentioning the API key configuration, the coaching builder
returns the zeroed record whose advice says "Check API Key", and the
cloze-exercise, cloze-evaluation and chapter-analysis builders return
the null sentinel with no message. -/
theorem c4_theorem (k : Option String) (net : Except String (Option String))
    (call : Except Unit Js) (blanks : List ClozeBlank) (answers : List (Int × String))
    (title now : String) (qs : List Question) (hk : keyMissing k = true) :
    generateModelAnswer k net =
      "Error: API Key is missing in Vercel Settings. Please configure it and redeploy." ∧
    StrContains (generateModelAnswer k net) "API Key" ∧
    generateQuestionDeconstruction k net = "Failed to analyze question. Check API Key." ∧
    gradeEssay k net = "Error: API Key is missing in Vercel Settings." ∧
    getRealTimeCoaching k call = coachingCatchResult ∧
    generateClozeExercise k call = none ∧
    evaluateClozeAnswers k blanks answers call = none ∧
    analyzeTopicMarkSchemes k call title qs now = none := by
  have hc : checkForApiKey k = Except.error checkForApiKeyMessage := by
    rw [checkForApiKey, if_pos hk]
  have h1 : generateModelAnswer k net =
      "Error: API Key is missing in Vercel Settings. Please configure it and redeploy." := by
    rw [generateModelAnswer.eq_def, hc]
    rfl
  refine ⟨h1, ?_, ?_, ?_, ?_, ?_, ?_, ?_⟩
  · rw [h1]
    decide
  · rw [generateQuestionDeconstruction.eq_def, hc]
  · rw [gradeEssay.eq_def, hc]
    rfl
  · rw [getRealTimeCoaching.eq_def, hc]
  · rw [generateClozeExercise.eq_def, hc]
  · rw [evaluateClozeAnswers.eq_def, hc]
  · rw [analyzeTopicMarkSchemes.eq_def, hc]

/-- C4 witness: the theorem applied with the credential absent and a
benign oracle. -/
theorem c4_witness :
    generateModelAnswer none (Except.ok (some "essay")) =
      "Error: API Key is missing in Vercel Settings. Please configure it and redeploy." ∧
    StrContains (generateModelAnswer none (Except.ok (some "essay"))) "API Key" ∧
    generateQuestionDeconstruction none (Except.ok (some "essay")) =
      "Failed to analyze question. Check API Key." ∧
    gradeEssay none (Except.ok (some "essay")) = "Error: API Key is missing in Vercel Settings." ∧
    getRealTimeCoaching none (Except.ok (Js.obj [])) = coachingCatchResult ∧
    generateClozeExercise none (Except.ok (Js.obj [])) = none ∧
    evaluateClozeAnswers none [] [] (Except.ok (Js.obj [])) = none ∧
    analyzeTopicMarkSchemes none (Except.ok (Js.obj [])) "Chapter" [] "now" = none :=
  c4_theorem none (Except.ok (some "essay")) (Except.ok (Js.obj [])) [] [] "Chapter" "now" [] rfl

/-! ## C5: normalizer defaulting -/

/-- C5 counterexample: a parse success whose object lacks the expected
fields makes generateClozeExercise return a success value whose
textWithBlanks and blanks fields are both undefined — neither a
fully-defaulted success value nor the null sentinel, so the caller does
receive undefined as a field. -/
theorem c5_counterexample :
    generateClozeExercise (some "key") (Except.ok (Js.obj [])) =
      some { textWithBlanks := none, blanks := none } :=
  rfl

/-- C5 (amended): no normalizer throws — failures surface as the null
sentinel or the fixed error record; the coaching normalizer substitutes
its explicit defaults (zero scores, fallback advice) for missing fields
and the chapter-analysis normalizer defaults its collections to empty
lists, but the cloze-exercise normalizer applies no defaults: on a parse
success with missing fields it returns a success value whose fields are
undefined. -/
theorem c5_theorem (k : Option String) (j : Js) (e : Unit) (title now : String)
    (qs : List Question) (hk : keyMissing k = false) :
    getRealTimeCoaching k (Except.error e) = coachingCatchResult ∧
    generateClozeExercise k (Except.error e) = none ∧
    analyzeTopicMarkSchemes k (Except.error e) title qs now = none ∧
    (j ≠ Js.null → jGet j "ao1" = none →
      (getRealTimeCoaching k (Except.ok j)).ao1 = Js.num 0) ∧
    (j ≠ Js.null → jGet j "advice" = none →
      (getRealTimeCoaching k (Except.ok j)).advice = Js.str "Keep writing...") ∧
    (j ≠ Js.null → jGet j "ao1" = none →
      ∃ r, analyzeTopicMarkSchemes k (Except.ok j) title qs now = some r ∧ r.ao1 = Js.arr []) ∧
    (j ≠ Js.null → jGet j "textWithBlanks" = none →
      ∃ r, generateClozeExercise k (Except.ok j) = some r ∧ r.textWithBlanks = none) := by
  have hc : checkForApiKey k = Except.ok () := by
    rw [checkForApiKey, hk]
    rfl
  refine ⟨?_, ?_, ?_, ?_, ?_, ?_, ?_⟩
  · rw [getRealTimeCoaching.eq_def, hc]
  · rw [generateClozeExercise.eq_def, hc]
  · rw [analyzeTopicMarkSchemes.eq_def, hc]
  · intro hnull hget
    rw [getRealTimeCoaching.eq_def, hc]
    simp [Js.isNull_eq_false hnull, hget, jsOr]
  · intro hnull hget
    rw [getRealTimeCoaching.eq_def, hc]
    simp [Js.isNull_eq_false hnull, hget, jsOr]
  · intro hnull hget
    rw [analyzeTopicMarkSchemes.eq_def, hc]
    simp only [Js.isNull_eq_false hnull, Bool.false_eq_true, if_false]
    exact ⟨_, rfl, by simp [hget, jsOr]⟩
  · intro hnull hget
    rw [generateClozeExercise.eq_def, hc]
    simp only [Js.isNull_eq_false hnull, Bool.false_eq_true, if_false]
    exact ⟨_, rfl, by simp [hget]⟩

/-- C5 witness: the theorem applied with a configured key and the parsed
object holding only an unrelated field. -/
theorem c5_witness :
    getRealTimeCoaching (some "key") (Except.error ()) = coachingCatchResult ∧
    generateClozeExercise (some "key") (Except.error ()) = none ∧
    analyzeTopicMarkSchemes (some "key") (Except.error ()) "T" [] "now" = none ∧
    ((Js.obj [("x", Js.num 1)]) ≠ Js.null → jGet (Js.obj [("x", Js.num 1)]) "ao1" = none →
      (getRealTimeCoaching (some "key") (Except.ok (Js.obj [("x", Js.num 1)]))).ao1 = Js.num 0) ∧
    ((Js.obj [("x", Js.num 1)]) ≠ Js.null → jGet (Js.obj [("x", Js.num 1)]) "advice" = none →
      (getRealTimeCoaching (some "key") (Except.ok (Js.obj [("x", Js.num 1)]))).advice =
        Js.str "Keep writing...") ∧
    ((Js.obj [("x", Js.num 1)]) ≠ Js.null → jGet (Js.obj [("x", Js.num 1)]) "ao1" = none →
      ∃ r, analyzeTopicMarkSchemes (some "key") (Except.ok (Js.obj [("x", Js.num 1)])) "T" [] "now" =
        some r ∧ r.ao1 = Js.arr []) ∧
    ((Js.obj [("x", Js.num 1)]) ≠ Js.null → jGet (Js.obj [("x", Js.num 1)]) "textWithBlanks" = none →
      ∃ r, generateClozeExercise (some "key") (Except.ok (Js.obj [("x", Js.num 1)])) = some r ∧
        r.textWithBlanks = none) :=
  c5_theorem (some "key") (Js.obj [("x", Js.num 1)]) () "T" "now" [] rfl


/-! ## C3: cloze feedback normalization -/

/-- Helper: a key of the map after one property assignment is an old key
or the assigned key. -/
theorem objSet_keys {α : Type} (m : List (String × α)) (k key : String) (v : α)
    (h : key ∈ (objSet m k v).map (fun p => p.1)) :
    key ∈ m.map (fun p => p.1) ∨ key = k := by
  unfold objSet at h
  by_cases hc : m.any (fun p => p.1 == k)
  · rw [if_pos hc, List.map_map] at h
    obtain ⟨p, hp, hpk⟩ := List.mem_map.mp h
    by_cases hpk2 : (p.1 == k) = true
    · right
      simp only [Function.comp_apply, if_pos hpk2] at hpk
      exact hpk.symm
    · left
      simp only [Function.comp_apply, if_neg hpk2] at hpk
      exact hpk ▸ List.mem_map.mpr ⟨p, hp, rfl⟩
  · rw [if_neg hc, List.map_append] at h
    rcases List.mem_append.mp h with h1 | h2
    · exact Or.inl h1
    · right
      simpa using h2

/-- Helper: every key of the map built by the feedback loop is a starting
key or the property key of one of the items. -/
theorem clozeFeedbackGo_keys (items : List Js) :
    ∀ (acc m : List (String × ClozeFeedbackJs)), clozeFeedbackGo items acc = Except.ok m →
      ∀ key ∈ m.map (fun p => p.1),
        key ∈ acc.map (fun p => p.1) ∨ ∃ item ∈ items, jsToPropertyKey (jGet item "id") = key := by
  induction items with
  | nil =>
    intro acc m h key hk
    cases h
    exact Or.inl hk
  | cons i rest ih =>
    intro acc m h key hk
    rw [clozeFeedbackGo] at h
    by_cases hn : i.isNull
    · rw [if_pos hn] at h
      exact Except.noConfusion h
    · rw [if_neg hn] at h
      rcases ih _ m h key hk with hacc | ⟨item, hitem, hkey⟩
      · rcases objSet_keys _ _ _ _ hacc with h3 | h3
        · exact Or.inl h3
        · exact Or.inr ⟨i, List.mem_cons_self i rest, h3.symm ▸ rfl⟩
      · exact Or.inr ⟨item, List.mem_cons_of_mem _ hitem, hkey⟩

/-- The blank and id of the concrete C3 scenario. -/
def c3Blank : ClozeBlank :=
  { id := 1, original := "shortage", hint := "AO2" }

/-- A parsed response whose single feedback item carries id 99, an id
that does not belong to any blank of the exercise. -/
def c3Response : Js :=
  Js.obj [("feedback", Js.arr [Js.obj [("id", Js.num 99), ("score", Js.num 5),
    ("comment", Js.str "ok")]])]

/-- C3 counterexample: with blanks = [id 1], a response item carrying id
99 lands in the returned map under key "99" — the normalizer never
filters the feedback keys against the blank list, so the map contains a
key absent from the originating blanks, refuting the claim. -/
theorem c3_counterexample :
    evaluateClozeAnswers (some "key") [c3Blank] [] (Except.ok c3Response) =
      some [("99", { score := some (Js.num 5), comment := some (Js.str "ok") })] ∧
    "99" ∉ [c3Blank].map (fun b => toString b.id) := by
  constructor
  · rfl
  · decide

/-- C3 (amended): the normalizer never throws — a missing credential, a
thrown transport or parse error, or a null item in the feedback list all
surface as the null sentinel; an absent (or non-array) feedback field
yields the empty map; on success the map is keyed by each feedback
item's own id coerced to a property key (an item without an id lands
under the key "undefined" rather than being discarded), and every key
of the map arises from some item's own id — the blank list plays no
part in the keys. -/
theorem c3_theorem (k : Option String) (blanks : List ClozeBlank)
    (answers : List (Int × String)) (call : Except Unit Js) (j : Js) (items : List Js) :
    (keyMissing k = true → evaluateClozeAnswers k blanks answers call = none) ∧
    (∀ e, evaluateClozeAnswers k blanks answers (Except.error e) = none) ∧
    (keyMissing k = false → j ≠ Js.null → jGet j "feedback" = none →
      evaluateClozeAnswers k blanks answers (Except.ok j) = some []) ∧
    (keyMissing k = false → j ≠ Js.null → jGet j "feedback" = some (Js.arr items) →
      ∀ m, evaluateClozeAnswers k blanks answers (Except.ok j) = some m →
        ∀ key ∈ m.map (fun p => p.1),
          ∃ item ∈ items, jsToPropertyKey (jGet item "id") = key) := by
  refine ⟨?_, ?_, ?_, ?_⟩
  · intro hk
    have hc : checkForApiKey k = Except.error checkForApiKeyMessage := by
      rw [checkForApiKey, if_pos hk]
    rw [evaluateClozeAnswers.eq_def, hc]
  · intro e
    rw [evaluateClozeAnswers.eq_def]
    cases hc : checkForApiKey k <;> rfl
  · intro hk hnull hfeed
    have hc : checkForApiKey k = Except.ok () := by
      rw [checkForApiKey, hk]
      rfl
    rw [evaluateClozeAnswers.eq_def, hc]
    simp [Js.isNull_eq_false hnull, hfeed]
  · intro hk hnull hfeed m hm key hkey
    have hc : checkForApiKey k = Except.ok () := by
      rw [checkForApiKey, hk]
      rfl
    rw [evaluateClozeAnswers.eq_def, hc] at hm
    simp only [Js.isNull_eq_false hnull, Bool.false_eq_true, if_false, hfeed] at hm
    cases hfold : clozeFeedbackFold items with
    | error e =>
      rw [hfold] at hm
      exact Option.noConfusion hm
    | ok m2 =>
      rw [hfold] at hm
      have hmm : m2 = m := Option.some.inj hm
      subst hmm
      rcases clozeFeedbackGo_keys items [] m2 hfold key hkey with habs | hgood
      · simp at habs
      · exact hgood

/-- C3 witness: the theorem applied at the concrete scenario of the
counterexample (key configured, one blank, feedback item with id 99). -/
theorem c3_witness :
    (keyMissing (some "key") = true →
      evaluateClozeAnswers (some "key") [c3Blank] [] (Except.ok c3Response) = none) ∧
    (∀ e, evaluateClozeAnswers (some "key") [c3Blank] [] (Except.error e) = none) ∧
    (keyMissing (some "key") = false → c3Response ≠ Js.null →
      jGet c3Response "feedback" = none →
      evaluateClozeAnswers (some "key") [c3Blank] [] (Except.ok c3Response) = some []) ∧
    (keyMissing (some "key") = false → c3Response ≠ Js.null →
      jGet c3Response "feedback" =
        some (Js.arr [Js.obj [("id", Js.num 99), ("score", Js.num 5),
          ("comment", Js.str "ok")]]) →
      ∀ m, evaluateClozeAnswers (some "key") [c3Blank] [] (Except.ok c3Response) = some m →
        ∀ key ∈ m.map (fun p => p.1),
          ∃ item ∈ [Js.obj [("id", Js.num 99), ("score", Js.num 5), ("comment", Js.str "ok")]],
            jsToPropertyKey (jGet item "id") = key) :=
  c3_theorem (some "key") [c3Blank] [] (Except.ok c3Response) c3Response
    [Js.obj [("id", Js.num 99), ("score", Js.num 5), ("comment", Js.str "ok")]]


/-! ## C8: soft delete and save -/

/-- Helper: the Map lookup misses when no entry carries the id. -/
theorem mapGet_none (l : List Question) (id : String) (h : ∀ q ∈ l, q.id ≠ id) :
    mapGet l id = none := by
  induction l with
  | nil => rfl
  | cons q rest ih =>
    rw [mapGet, ih (fun x hx => h x (List.mem_cons_of_mem _ hx))]
    simp [h q (List.mem_cons_self q rest)]

/-- Helper: after replacing every entry with the saved id by the saved
question, the Map lookup at that id returns the saved question. -/
theorem mapGet_replace (custom : List Question) (x : Question)
    (h : ∃ q ∈ custom, q.id = x.id) :
    mapGet (custom.map (fun q => if q.id == x.id then x else q)) x.id = some x := by
  induction custom with
  | nil =>
    obtain ⟨q, hq, _⟩ := h
    exact absurd hq (List.not_mem_nil q)
  | cons q rest ih =>
    rw [List.map_cons, mapGet]
    by_cases hr : ∃ p ∈ rest, p.id = x.id
    · rw [ih hr]
    · have hnone : mapGet (rest.map (fun p => if p.id == x.id then x else p)) x.id = none := by
        apply mapGet_none
        intro p hp
        obtain ⟨p0, hp0, hp0e⟩ := List.mem_map.mp hp
        by_cases hc : (p0.id == x.id) = true
        · exact absurd ⟨p0, hp0, eq_of_beq hc⟩ hr
        · rw [if_neg hc] at hp0e
          subst hp0e
          intro he
          exact hc (beq_iff_eq.mpr he)
      rw [hnone]
      have hq : q.id = x.id := by
        obtain ⟨q1, hq1, he⟩ := h
        rcases List.mem_cons.mp hq1 with h1 | h1
        · exact h1 ▸ he
        · exact absurd ⟨q1, h1, he⟩ hr
      rw [if_pos (beq_iff_eq.mpr hq)]
      simp

/-- Helper: the Map lookup at the id of a freshly appended question
returns that question. -/
theorem mapGet_append_self (custom : List Question) (x : Question) :
    mapGet (custom ++ [x]) x.id = some x := by
  induction custom with
  | nil =>
    rw [List.nil_append, mapGet, mapGet]
    simp
  | cons q rest ih =>
    rw [List.cons_append, mapGet, ih]

/-- Helper: a question stored in the custom list, found by the Map
lookup at its id and not soft-deleted, appears in the effective catalog
for every base catalog. -/
theorem mem_allQuestionsMerge (base custom : List Question) (deleted : List String)
    (q : Question) (hq : mapGet custom q.id = some q) (hqc : q ∈ custom)
    (hdel : q.id ∉ deleted) : q ∈ allQuestionsMerge base custom deleted := by
  unfold allQuestionsMerge
  rw [List.mem_filter]
  refine ⟨?_, by simp [hdel]⟩
  rw [List.mem_append]
  by_cases hb : ∃ b ∈ base, b.id = q.id
  · left
    obtain ⟨b, hbm, hbe⟩ := hb
    refine List.mem_map.mpr ⟨b, hbm, ?_⟩
    rw [hbe, hq]
  · right
    rw [List.mem_filter]
    refine ⟨hqc, ?_⟩
    have hany : (base.any (fun b => b.id == q.id)) = false := by
      refine List.any_eq_false.mpr (fun b hbm hbe => ?_)
      exact hb ⟨b, hbm, eq_of_beq hbe⟩
    simp [hany]

/-- Helper: the saved question is in the updated custom list and is what
the Map lookup at its id returns. -/
theorem savedCustom_mapGet (custom : List Question) (q : Question) :
    mapGet (if custom.any (fun p => p.id == q.id) then
        custom.map (fun p => if p.id == q.id then q else p)
      else custom ++ [q]) q.id = some q ∧
    q ∈ (if custom.any (fun p => p.id == q.id) then
        custom.map (fun p => if p.id == q.id then q else p)
      else custom ++ [q]) := by
  by_cases hc : custom.any (fun p => p.id == q.id)
  · rw [if_pos hc]
    obtain ⟨p, hp, hpe⟩ := List.any_eq_true.mp hc
    have hex : ∃ p2 ∈ custom, p2.id = q.id := ⟨p, hp, eq_of_beq hpe⟩
    refine ⟨mapGet_replace custom q hex, ?_⟩
    refine List.mem_map.mpr ⟨p, hp, ?_⟩
    rw [if_pos hpe]
  · rw [if_neg hc]
    exact ⟨mapGet_append_self custom q, List.mem_append.mpr (Or.inr (List.mem_cons_self q []))⟩

/-- Concrete saved question for the C8 counterexample. -/
def c8Question : Question :=
  { id := "q1", year := "2024", paper := "P2", variant := "V1", questionNumber := "1",
    topic := "T", chapter := "C", questionText := "Edited text", markScheme := "MS",
    maxMarks := 8 }

/-- The base-catalog version of the same question. -/
def c8Base : Question :=
  { id := "q1", year := "2024", paper := "P2", variant := "V1", questionNumber := "1",
    topic := "T", chapter := "C", questionText := "Original text", markScheme := "MS",
    maxMarks := 8 }

/-- C8 counterexample: in src/App.tsx, saving a question whose id sits
in the soft-delete set leaves the set unchanged, so the question stays
hidden — the effective catalog is empty — although the claim says the
save removes the id and makes the question visible again. -/
theorem c8_counterexample :
    (appMainSaveQuestion { customQuestions := [], deletedIds := ["q1"] } c8Question).deletedIds =
      ["q1"] ∧
    allQuestionsMerge [c8Base]
      (appMainSaveQuestion { customQuestions := [], deletedIds := ["q1"] } c8Question).customQuestions
      (appMainSaveQuestion { customQuestions := [], deletedIds := ["q1"] } c8Question).deletedIds =
      [] := by
  constructor
  · rfl
  · rfl

/-- C8 (amended): in src/App.tsx deletion only records the id in the
soft-delete set (the stored custom list is untouched) and saving never
touches the deleted set, so a deleted id stays hidden; in the part_001
variant saving a question removes its id from the deleted set and makes
the question appear in the effective catalog for every base, while
deletion removes the custom record and, only for ids without the
custom- prefix, also records the id in the soft-delete set. -/
theorem c8_theorem (s : CatalogState) (id : String) (q : Question) (base : List Question) :
    (appMainDeleteQuestion s id).customQuestions = s.customQuestions ∧
    (appMainDeleteQuestion s id).deletedIds = s.deletedIds ++ [id] ∧
    (appMainSaveQuestion s q).deletedIds = s.deletedIds ∧
    q.id ∉ (appV2SaveQuestion s q).deletedIds ∧
    q ∈ allQuestionsMerge base (appV2SaveQuestion s q).customQuestions
      (appV2SaveQuestion s q).deletedIds ∧
    ("custom-".data.isPrefixOf id.data = true →
      (appV2DeleteQuestion s id).customQuestions = s.customQuestions.filter (fun p => p.id ≠ id) ∧
      (appV2DeleteQuestion s id).deletedIds = s.deletedIds) ∧
    ("custom-".data.isPrefixOf id.data = false →
      (appV2DeleteQuestion s id).customQuestions = s.customQuestions.filter (fun p => p.id ≠ id) ∧
      (appV2DeleteQuestion s id).deletedIds = s.deletedIds ++ [id]) := by
  have hdel : q.id ∉ (appV2SaveQuestion s q).deletedIds := by
    unfold appV2SaveQuestion
    dsimp only
    by_cases hc : s.deletedIds.contains q.id = true
    · rw [if_pos hc]
      intro hmem
      have h2 := List.of_mem_filter hmem
      simp at h2
    · rw [if_neg hc]
      intro hmem
      exact hc (by simpa using hmem)
  refine ⟨rfl, rfl, rfl, hdel, ?_, ?_, ?_⟩
  · have hsaved := savedCustom_mapGet s.customQuestions q
    exact mem_allQuestionsMerge base _ _ q hsaved.1 hsaved.2 hdel
  · intro hp
    unfold appV2DeleteQuestion
    rw [if_pos hp]
    exact ⟨rfl, rfl⟩
  · intro hp
    unfold appV2DeleteQuestion
    rw [if_neg (by simp [hp])]
    exact ⟨rfl, rfl⟩


/-! ## C10: image grading edge cases -/

/-- Helper: stripping a literal prefix from exactly that prefix plus a
remainder yields the remainder. -/
theorem stripChars_append (p r : List Char) : stripChars p (p ++ r) = some r := by
  induction p with
  | nil => rfl
  | cons a t ih =>
    rw [List.cons_append, stripChars]
    simp [ih]

/-- Helper: takeWhile and dropWhile split a run of matching characters
at the first failing character. -/
theorem takeWhile_dropWhile_append (p : Char → Bool) (l : List Char) (c : Char)
    (r : List Char) (hl : ∀ x ∈ l, p x = true) (hc : p c = false) :
    (l ++ c :: r).takeWhile p = l ∧ (l ++ c :: r).dropWhile p = c :: r := by
  induction l with
  | nil =>
    constructor <;> simp [List.takeWhile_cons, List.dropWhile_cons, hc]
  | cons a t ih =>
    have ha := hl a (List.mem_cons_self a t)
    have iht := ih (fun x hx => hl x (List.mem_cons_of_mem _ hx))
    constructor <;>
      simp [List.takeWhile_cons, List.dropWhile_cons, ha, iht.1, iht.2]

/-- Helper: a nonempty string has a nonempty character list. -/
theorem data_ne_nil_of_ne_empty {s : String} (h : s ≠ "") : s.data ≠ [] := by
  intro h0
  apply h
  cases s with
  | mk d =>
    simp only at h0
    rw [h0]

/-- Helper: the anchored data-URI regex matches a well-formed prefix and
captures the subtype and base64 body. -/
theorem dataUriMatch_decomp (sub body : String) (hsub : sub ≠ "")
    (hall : ∀ c ∈ sub.data, mimeCharOk c = true) :
    dataUriMatch ("data:image/" ++ sub ++ ";base64," ++ body) = some (sub, body) := by
  have hdata : ("data:image/" ++ sub ++ ";base64," ++ body).data =
      "data:image/".data ++ (sub.data ++ (';' :: ("base64,".data ++ body.data))) := by
    simp [String.data_append, List.append_assoc]
  rw [dataUriMatch, hdata, stripChars_append]
  dsimp only
  have hsplit := takeWhile_dropWhile_append mimeCharOk sub.data ';'
    ("base64,".data ++ body.data) hall (by rfl)
  rw [hsplit.1, hsplit.2]
  rw [if_neg (by simp [data_ne_nil_of_ne_empty hsub])]
  have hmid : (';' : Char) :: ("base64,".data ++ body.data) = ";base64,".data ++ body.data := rfl
  rw [hmid, stripChars_append]

/-- C10: with a non-empty image list, gradeEssay substitutes the
placeholder sentence for a whitespace-only essay (and the rendered
prompt carries it), appends the page-count note either way, sniffs each
image MIME subtype from a well-formed base64 data-URI prefix, strips the
prefix from the body, and falls back to image/jpeg (keeping the string
intact) when the prefix does not match. -/
theorem c10_theorem (question : Question) (studentEssay : String) (imagesBase64 : List String)
    (img sub body : String) :
    (imagesBase64 ≠ [] → jsTrim studentEssay = "" →
      gradeEssayContentText studentEssay imagesBase64 =
        "See attached images for the student\x27s handwritten essay." ++
          gradeEssayImageNote imagesBase64.length ∧
      StrContains (gradeEssayPrompt question (gradeEssayContentText studentEssay imagesBase64))
        "See attached images for the student\x27s handwritten essay.") ∧
    (imagesBase64 ≠ [] → jsTrim studentEssay ≠ "" →
      gradeEssayContentText studentEssay imagesBase64 =
        studentEssay ++ gradeEssayImageNote imagesBase64.length) ∧
    (img = "data:image/" ++ sub ++ ";base64," ++ body → sub ≠ "" →
      (∀ c ∈ sub.data, mimeCharOk c = true) →
      sniffMime img = "image/" ++ sub ∧ cleanBase64 img = body) ∧
    (dataUriMatch img = none → sniffMime img = "image/jpeg" ∧ cleanBase64 img = img) ∧
    (gradeEssayParts question studentEssay imagesBase64 =
      imagesBase64.map (fun i => Part.inlineData (sniffMime i) (cleanBase64 i)) ++
        [Part.text (gradeEssayPrompt question (gradeEssayContentText studentEssay imagesBase64))]) := by
  refine ⟨?_, ?_, ?_, ?_, rfl⟩
  · intro himg hempty
    have hlen : 0 < imagesBase64.length := List.length_pos.mpr himg
    have hcontent : gradeEssayContentText studentEssay imagesBase64 =
        "See attached images for the student\x27s handwritten essay." ++
          gradeEssayImageNote imagesBase64.length := by
      rw [gradeEssayContentText, if_pos (by omega), if_pos hempty]
    refine ⟨hcontent, ?_⟩
    have hin : StrContains (gradeEssayContentText studentEssay imagesBase64)
        "See attached images for the student\x27s handwritten essay." := by
      rw [hcontent]
      exact strContains_right _ (strContains_self _)
    refine strContains_trans ?_ hin
    simp only [gradeEssayPrompt]
    repeat first
      | exact strContains_left _ (strContains_self _)
      | apply strContains_right
  · intro himg hne
    have hlen : 0 < imagesBase64.length := List.length_pos.mpr himg
    rw [gradeEssayContentText, if_pos (by omega), if_neg hne]
  · intro heq hsub hall
    subst heq
    have hm := dataUriMatch_decomp sub body hsub hall
    rw [sniffMime, cleanBase64, hm]
    exact ⟨rfl, rfl⟩
  · intro hm
    rw [sniffMime, cleanBase64, hm]
    exact ⟨rfl, rfl⟩

/-- C10 witness: the theorem applied at a whitespace-only essay, one
image with a png data-URI prefix, and one malformed string. -/
theorem c10_witness :
    ((["data:image/png;base64,AAAA"] : List String) ≠ [] → jsTrim "  " = "" →
      gradeEssayContentText "  " ["data:image/png;base64,AAAA"] =
        "See attached images for the student\x27s handwritten essay." ++
          gradeEssayImageNote (["data:image/png;base64,AAAA"] : List String).length ∧
      StrContains (gradeEssayPrompt c1Question
          (gradeEssayContentText "  " ["data:image/png;base64,AAAA"]))
        "See attached images for the student\x27s handwritten essay.") ∧
    ((["data:image/png;base64,AAAA"] : List String) ≠ [] → jsTrim "  " ≠ "" →
      gradeEssayContentText "  " ["data:image/png;base64,AAAA"] =
        "  " ++ gradeEssayImageNote (["data:image/png;base64,AAAA"] : List String).length) ∧
    (("data:image/png;base64,AAAA" : String) = "data:image/" ++ "png" ++ ";base64," ++ "AAAA" →
      ("png" : String) ≠ "" → (∀ c ∈ ("png" : String).data, mimeCharOk c = true) →
      sniffMime "data:image/png;base64,AAAA" = "image/" ++ "png" ∧
      cleanBase64 "data:image/png;base64,AAAA" = "AAAA") ∧
    (dataUriMatch "nodataprefix" = none →
      sniffMime "nodataprefix" = "image/jpeg" ∧ cleanBase64 "nodataprefix" = "nodataprefix") ∧
    (gradeEssayParts c1Question "  " ["data:image/png;base64,AAAA"] =
      (["data:image/png;base64,AAAA"] : List String).map
          (fun i => Part.inlineData (sniffMime i) (cleanBase64 i)) ++
        [Part.text (gradeEssayPrompt c1Question
          (gradeEssayContentText "  " ["data:image/png;base64,AAAA"]))]) := by
  have h := c10_theorem c1Question "  " ["data:image/png;base64,AAAA"]
    "nodataprefix" "png" "AAAA"
  refine ⟨?_, h.2.1, ?_, h.2.2.2.1, h.2.2.2.2⟩
  · exact h.1
  · intro h1 h2 h3
    have hm := (c10_theorem c1Question "  " ["data:image/png;base64,AAAA"]
      "data:image/png;base64,AAAA" "png" "AAAA").2.2.1 (by rfl) h2 h3
    exact hm

end EssayMaster
